import Mathlib

/-!
Shallow embedding of `internal/qerr/quic_error.go` (package `qerr`):
the QUIC error value, its five constructors, the classifier predicates,
the formatter (`Error()`), and the converter (`ToQuicError`).

The external error-code registry (`error_codes.go`: `ErrorCode.String`,
`ErrorCode.Message`, `ErrorCode.isCryptoError`, `InternalError`) is not part
of the embedded file; following the spec, it is modelled as an injected
read-only collaborator (`Registry`), plus one concrete instance used for
closed evaluations.
-/

namespace QErr

/-- Go's `fmt.Sprintf("%#x", n)` for an unsigned integer: `0x`-prefixed
lowercase hexadecimal (Go renders `0` as `"0x0"`). -/
def goHex (n : Nat) : String :=
  "0x" ++ String.mk (Nat.toDigits 16 n)

/-- Modelled from the spec: the external error-code registry (missing
`error_codes.go`), an injected read-only collaborator providing the canonical
short name of a code, the canonical default message of a code, and the
"is this code in the reserved crypto-alert band" predicate. -/
structure Registry where
  string : Nat → String
  message : Nat → String
  isCryptoError : Nat → Bool

/-- Modelled from the spec: the registry's crypto-band range check (missing
`error_codes.go`). Per Invariant I3 the band is the fixed base `0x100` offset
by the alert values 0–255, i.e. the interval [0x100, 0x200). -/
def bandIsCryptoError (c : Nat) : Bool :=
  0x100 ≤ c && c < 0x200

/-- Modelled from the spec: a concrete registry instance (missing
`error_codes.go`) used to evaluate closed statements. Code 0 has canonical
short name `NO_ERROR`; crypto-band codes get a banded name and a non-empty
default message; other codes get an "unknown" name and no default message. -/
def specRegistry : Registry where
  string c :=
    if c = 0 then "NO_ERROR"
    else if bandIsCryptoError c then "CRYPTO_ERROR (" ++ goHex c ++ ")"
    else "unknown error code: " ++ goHex c
  message c := if bandIsCryptoError c then "crypto failure" else ""
  isCryptoError := bandIsCryptoError

/-- `QuicError` from `quic_error.go`: a numeric error code, a frame type
(only valid if this is not an application error), a message, and the two
category flags. Unsigned machine integers are modelled as `Nat`. -/
structure QuicError where
  ErrorCode : Nat
  FrameType : Nat
  ErrorMessage : String
  isTimeout : Bool
  isApplicationError : Bool
deriving DecidableEq, Repr

/-- `NewError` from `quic_error.go`: plain transport error. Fields not listed
in the Go composite literal take their zero values. -/
def NewError (errorCode : Nat) (errorMessage : String) : QuicError :=
  { ErrorCode := errorCode
    FrameType := 0
    ErrorMessage := errorMessage
    isTimeout := false
    isApplicationError := false }

/-- `NewErrorWithFrameType` from `quic_error.go`: transport error with frame
context. -/
def NewErrorWithFrameType (errorCode : Nat) (frameType : Nat)
    (errorMessage : String) : QuicError :=
  { ErrorCode := errorCode
    FrameType := frameType
    ErrorMessage := errorMessage
    isTimeout := false
    isApplicationError := false }

/-- `NewTimeoutError` from `quic_error.go`: timeout error; `ErrorCode` and
`FrameType` are left at their zero values. -/
def NewTimeoutError (errorMessage : String) : QuicError :=
  { ErrorCode := 0
    FrameType := 0
    ErrorMessage := errorMessage
    isTimeout := true
    isApplicationError := false }

/-- `NewCryptoError` from `quic_error.go`: crypto error built from a TLS
alert. The Go parameter is a `uint8`, modelled as a `Nat` (theorems carry the
bound `tlsAlert < 256` where it matters). -/
def NewCryptoError (tlsAlert : Nat) (errorMessage : String) : QuicError :=
  { ErrorCode := 0x100 + tlsAlert
    FrameType := 0
    ErrorMessage := errorMessage
    isTimeout := false
    isApplicationError := false }

/-- `NewApplicationError` from `quic_error.go`: application error;
`FrameType` is left at its zero value. -/
def NewApplicationError (errorCode : Nat) (errorMessage : String) : QuicError :=
  { ErrorCode := errorCode
    FrameType := 0
    ErrorMessage := errorMessage
    isTimeout := false
    isApplicationError := true }

/-- `(*QuicError).Error()` from `quic_error.go`, the formatter, with the
registry lookups `ErrorCode.String()` / `ErrorCode.Message()` taken from the
injected registry. Go's `len(s) == 0` on a string is its emptiness test,
embedded as `s = ""`. -/
def QuicError.error (reg : Registry) (e : QuicError) : String :=
  if e.isApplicationError then
    if e.ErrorMessage = "" then
      "Application error " ++ goHex e.ErrorCode
    else
      "Application error " ++ goHex e.ErrorCode ++ ": " ++ e.ErrorMessage
  else
    let str := reg.string e.ErrorCode
    let str := if e.FrameType ≠ 0 then
        str ++ " (frame type: " ++ goHex e.FrameType ++ ")"
      else str
    let msg := if e.ErrorMessage = "" then reg.message e.ErrorCode
      else e.ErrorMessage
    if msg = "" then str else str ++ ": " ++ msg

/-- `(*QuicError).IsCryptoError()` from `quic_error.go`: delegates to the
registry's range check on the stored code. -/
def QuicError.IsCryptoError (reg : Registry) (e : QuicError) : Bool :=
  reg.isCryptoError e.ErrorCode

/-- `(*QuicError).IsApplicationError()` from `quic_error.go`. -/
def QuicError.IsApplicationError (e : QuicError) : Bool :=
  e.isApplicationError

/-- `(*QuicError).Temporary()` from `quic_error.go`: always false. -/
def QuicError.Temporary (_e : QuicError) : Bool :=
  false

/-- `(*QuicError).Timeout()` from `quic_error.go`. -/
def QuicError.Timeout (e : QuicError) : Bool :=
  e.isTimeout

/-- Modelled from the spec: the registry's fixed "internal error" code
(`InternalError` from the missing `error_codes.go`; QUIC's INTERNAL_ERROR,
`0x1`). The theorems below depend only on it being a fixed constant. -/
def InternalError : Nat := 0x1

/-- The runtime shapes `ToQuicError`'s type switch distinguishes on its
`error` argument: an already-normalized `*QuicError`, a bare `ErrorCode`,
or any other error carrying only its `Error()` description. -/
inductive GoError where
  | quic (q : QuicError)
  | errorCode (c : Nat)
  | other (desc : String)
deriving DecidableEq, Repr

/-- `ToQuicError` from `quic_error.go`: the converter, matching the Go type
switch case for case in order; in the fallback case `err.Error()` is the
foreign failure's own description. -/
def ToQuicError : GoError → QuicError
  | .quic e => e
  | .errorCode e => NewError e ""
  | .other desc => NewError InternalError desc

/-!
Theorems settling the claims.
-/

/-- C1 (counterexample): the claim says a value built by the application-error
constructor has `IsCryptoError() = false` regardless of its code; but the
source method delegates only to the registry range check, so the application
error with code `0x100` reports `IsCryptoError() = true`. -/
theorem c1_app_crypto_counterexample :
    QuicError.IsApplicationError (NewApplicationError 0x100 "") = true ∧
    QuicError.IsCryptoError specRegistry (NewApplicationError 0x100 "") = true := by
  decide

/-- C1 (amended): `IsCryptoError()` returns the registry's range check on the
stored code alone, never consulting the category flags; in particular a value
built by the application-error constructor with code `c` reports
`IsCryptoError()` true exactly when `c` is in the crypto band. -/
theorem c1_isCryptoError_ignores_category (reg : Registry) (e : QuicError)
    (c : Nat) (m : String) :
    e.IsCryptoError reg = reg.isCryptoError e.ErrorCode ∧
    (NewApplicationError c m).IsCryptoError reg = reg.isCryptoError c :=
  ⟨rfl, rfl⟩

/-- C2: a value built by the timeout constructor has `ErrorCode = 0`, and its
rendered string is determined by the message and the registry's entries at
that fixed zero code alone — no other code influences the output. -/
theorem c2_timeout_code_unused (reg : Registry) (m : String) :
    (NewTimeoutError m).ErrorCode = 0 ∧
    (NewTimeoutError m).error reg =
      (if (if m = "" then reg.message 0 else m) = "" then reg.string 0
       else reg.string 0 ++ ": " ++ (if m = "" then reg.message 0 else m)) := by
  refine ⟨rfl, ?_⟩
  simp [QuicError.error, NewTimeoutError]

/-- C3: converting a value that is already a `QuicError` returns it
unchanged, and conversion is idempotent:
`ToQuicError (ToQuicError x) = ToQuicError x`. -/
theorem c3_convert_idempotent (q : QuicError) (x : GoError) :
    ToQuicError (GoError.quic q) = q ∧
    ToQuicError (GoError.quic (ToQuicError x)) = ToQuicError x :=
  ⟨rfl, by cases x <;> rfl⟩

/-- C4: no value produced by any of the five constructors has both category
flags set, and the converter preserves this: whenever the embedded
`QuicError` (if any) satisfies the invariant, so does the converter's
output. -/
theorem c4_category_exclusive (c ft a : Nat) (m : String) (ge : GoError)
    (h : ∀ q, ge = GoError.quic q → (q.isTimeout && q.isApplicationError) = false) :
    ((NewError c m).isTimeout && (NewError c m).isApplicationError) = false ∧
    ((NewErrorWithFrameType c ft m).isTimeout &&
      (NewErrorWithFrameType c ft m).isApplicationError) = false ∧
    ((NewTimeoutError m).isTimeout && (NewTimeoutError m).isApplicationError) = false ∧
    ((NewCryptoError a m).isTimeout && (NewCryptoError a m).isApplicationError) = false ∧
    ((NewApplicationError c m).isTimeout &&
      (NewApplicationError c m).isApplicationError) = false ∧
    ((ToQuicError ge).isTimeout && (ToQuicError ge).isApplicationError) = false := by
  refine ⟨rfl, rfl, rfl, rfl, rfl, ?_⟩
  cases ge with
  | quic q => exact h q rfl
  | errorCode c => rfl
  | other d => rfl

/-- C4 witness: the theorem applied at concrete inputs, feeding the converter
an already-constructed timeout error. -/
theorem c4_category_exclusive_witness :
    ((ToQuicError (GoError.quic (NewTimeoutError "t"))).isTimeout &&
      (ToQuicError (GoError.quic (NewTimeoutError "t"))).isApplicationError) = false :=
  (c4_category_exclusive 1 2 3 "x" (GoError.quic (NewTimeoutError "t"))
    (fun q hq => by injection hq with h; subst h; rfl)).2.2.2.2.2

/-- C5: for every alert value below 256, the crypto-error constructor yields
code `0x100 + alert`, `IsCryptoError()` true (registry band check), and
`IsApplicationError()` false. -/
theorem c5_crypto_error (a : Nat) (m : String) (h : a < 256) :
    (NewCryptoError a m).ErrorCode = 0x100 + a ∧
    (NewCryptoError a m).IsCryptoError specRegistry = true ∧
    (NewCryptoError a m).IsApplicationError = false := by
  refine ⟨rfl, ?_, rfl⟩
  simp [QuicError.IsCryptoError, NewCryptoError, specRegistry, bandIsCryptoError]
  omega

/-- C5 witness: the theorem applied at alert value 10. -/
theorem c5_crypto_error_witness :
    10 < 256 ∧
    ((NewCryptoError 10 "m").ErrorCode = 0x100 + 10 ∧
     (NewCryptoError 10 "m").IsCryptoError specRegistry = true ∧
     (NewCryptoError 10 "m").IsApplicationError = false) :=
  ⟨by decide, c5_crypto_error 10 "m" (by decide)⟩

/-- C6: the application-error constructor leaves `FrameType` at 0 whatever
code and message are passed, and so does the timeout constructor. -/
theorem c6_frameType_zero (c : Nat) (m t : String) :
    (NewApplicationError c m).FrameType = 0 ∧ (NewTimeoutError t).FrameType = 0 :=
  ⟨rfl, rfl⟩

/-- C7: for every non-application error value, the rendering is the
registry's short name, then `" (frame type: 0x…)"` when `FrameType` is
non-zero, then `": "` and the stored message (or the registry default when
the stored one is empty) unless both are empty. -/
theorem c7_non_application_render (reg : Registry) (e : QuicError)
    (h : e.isApplicationError = false) :
    e.error reg =
      (let short := reg.string e.ErrorCode ++
        (if e.FrameType = 0 then "" else " (frame type: " ++ goHex e.FrameType ++ ")")
       let resolved := if e.ErrorMessage = "" then reg.message e.ErrorCode
         else e.ErrorMessage
       if resolved = "" then short else short ++ ": " ++ resolved) := by
  by_cases hf : e.FrameType = 0 <;>
    simp [QuicError.error, h, hf, String.append_assoc]

/-- C7 witness: the theorem applied to a transport error with frame type
`0x7` and empty message, under the concrete registry. -/
theorem c7_non_application_render_witness :
    (NewErrorWithFrameType 2 7 "").error specRegistry =
      (let short := specRegistry.string (NewErrorWithFrameType 2 7 "").ErrorCode ++
        (if (NewErrorWithFrameType 2 7 "").FrameType = 0 then ""
         else " (frame type: " ++ goHex (NewErrorWithFrameType 2 7 "").FrameType ++ ")")
       let resolved := if (NewErrorWithFrameType 2 7 "").ErrorMessage = "" then
           specRegistry.message (NewErrorWithFrameType 2 7 "").ErrorCode
         else (NewErrorWithFrameType 2 7 "").ErrorMessage
       if resolved = "" then short else short ++ ": " ++ resolved) :=
  c7_non_application_render specRegistry (NewErrorWithFrameType 2 7 "") rfl

/-- C8: an application error renders as `"Application error 0x…"`, with
`": message"` appended exactly when the message is non-empty; in particular
code `0x42` with empty message gives `"Application error 0x42"` and code
`0x1` with message `"bye"` gives `"Application error 0x1: bye"`. -/
theorem c8_application_render (reg : Registry) (c : Nat) (m : String) :
    (NewApplicationError c m).error reg =
      (if m = "" then "Application error " ++ goHex c
       else "Application error " ++ goHex c ++ ": " ++ m) ∧
    (NewApplicationError 0x42 "").error specRegistry = "Application error 0x42" ∧
    (NewApplicationError 0x1 "bye").error specRegistry = "Application error 0x1: bye" := by
  refine ⟨?_, by decide, by decide⟩
  by_cases hm : m = "" <;> simp [QuicError.error, NewApplicationError, hm]

/-- C9: the converter is total over the three runtime shapes; a bare numeric
code `c` becomes a transport value with code `c` and empty message, and any
other foreign failure becomes a transport value with the fixed internal-error
code and the failure's own description as message. -/
theorem c9_converter_cases (c : Nat) (d : String) :
    ToQuicError (GoError.errorCode c) = NewError c "" ∧
    (ToQuicError (GoError.errorCode c)).ErrorCode = c ∧
    (ToQuicError (GoError.errorCode c)).ErrorMessage = "" ∧
    (ToQuicError (GoError.errorCode c)).isApplicationError = false ∧
    (ToQuicError (GoError.errorCode c)).isTimeout = false ∧
    ToQuicError (GoError.other d) = NewError InternalError d ∧
    (ToQuicError (GoError.other d)).ErrorCode = InternalError ∧
    (ToQuicError (GoError.other d)).ErrorMessage = d ∧
    (ToQuicError (GoError.other d)).isApplicationError = false ∧
    (ToQuicError (GoError.other d)).isTimeout = false :=
  ⟨rfl, rfl, rfl, rfl, rfl, rfl, rfl, rfl, rfl, rfl⟩

/-- C10: the plain transport constructor coincides with the frame-context
constructor at frame type 0, as equal values, so every observer treats them
identically. -/
theorem c10_newError_eq_frameType_zero (c : Nat) (m : String) :
    NewError c m = NewErrorWithFrameType c 0 m :=
  rfl

end QErr
